import Mathlib

/-!
Verification of `src/physics/arcade/PhysicsGroup.js` (Arcade Physics Group).

The file shallowly embeds the data model and the operations of the source
file: the constructor's argument normalisation, the defaults table, the
creation and removal hooks, and the bulk velocity setters. JavaScript
numbers are modelled as `Int` (only addition and multiplication occur),
configuration records as Lean structures with `Option`-typed fields
(`none` plays the role of `undefined`), and in-place mutation of caller
supplied records as updates to an explicit heap `Nat → ConfigRecord`.
Side effects on the external simulation world are modelled as an explicit
trace of call events.
-/

namespace ArcadePhysicsGroup

/-- Scalar values a configuration field or body slot can hold: numbers,
booleans, and the custom bounds rectangle object. -/
inductive Value where
  | num : Int → Value
  | bool : Bool → Value
  | rect : Int → Int → Int → Int → Value
  deriving DecidableEq

/-- The physics body kind constants from `const.js` (`CONST.DYNAMIC_BODY`,
`CONST.STATIC_BODY`). -/
inductive BodyType where
  | dynamicBody
  | staticBody
  deriving DecidableEq

/-- Keys of the `defaults` table: each is the name of one body setter, in the
declaration order of the object literal at lines 131-157 of the source. -/
inductive SetterKey where
  | setCollideWorldBounds
  | setBoundsRectangle
  | setAccelerationX
  | setAccelerationY
  | setAllowDrag
  | setAllowGravity
  | setAllowRotation
  | setBounceX
  | setBounceY
  | setDragX
  | setDragY
  | setEnable
  | setGravityX
  | setGravityY
  | setFrictionX
  | setFrictionY
  | setMaxVelocityX
  | setMaxVelocityY
  | setVelocityX
  | setVelocityY
  | setAngularVelocity
  | setAngularAcceleration
  | setAngularDrag
  | setMass
  | setImmovable
  deriving DecidableEq

/-- Modelled from the spec: the Body collaborator (section 6) exposes one
setter per defaults-table key, each overwriting a single named slot of the
body state, and a mutable velocity vector whose X/Y components are the
`velocityX`/`velocityY` slots. The slots are held as one field per setter. -/
structure Body where
  collideWorldBounds : Value
  boundsRectangle : Value
  accelerationX : Value
  accelerationY : Value
  allowDrag : Value
  allowGravity : Value
  allowRotation : Value
  bounceX : Value
  bounceY : Value
  dragX : Value
  dragY : Value
  enable : Value
  gravityX : Value
  gravityY : Value
  frictionX : Value
  frictionY : Value
  maxVelocityX : Value
  maxVelocityY : Value
  velocityX : Value
  velocityY : Value
  angularVelocity : Value
  angularAcceleration : Value
  angularDrag : Value
  mass : Value
  immovable : Value
  deriving DecidableEq

/-- Modelled from the spec: the fresh body state the Simulation World's
`enableBody` attaches. Its particular slot values never matter to the
claims; zero everywhere is used. -/
def zeroBody : Body :=
  { collideWorldBounds := .num 0, boundsRectangle := .num 0
    accelerationX := .num 0, accelerationY := .num 0
    allowDrag := .num 0, allowGravity := .num 0, allowRotation := .num 0
    bounceX := .num 0, bounceY := .num 0
    dragX := .num 0, dragY := .num 0, enable := .num 0
    gravityX := .num 0, gravityY := .num 0
    frictionX := .num 0, frictionY := .num 0
    maxVelocityX := .num 0, maxVelocityY := .num 0
    velocityX := .num 0, velocityY := .num 0
    angularVelocity := .num 0, angularAcceleration := .num 0
    angularDrag := .num 0, mass := .num 0, immovable := .num 0 }

/-- Modelled from the spec: invoking the named body setter `body[key](val)`
overwrites the corresponding single slot of the body (spec section 6: one
setter method per defaults-table key, each accepting a single value and
mutating body state). -/
def applySetter (b : Body) (k : SetterKey) (v : Value) : Body :=
  match k with
  | .setCollideWorldBounds => { b with collideWorldBounds := v }
  | .setBoundsRectangle => { b with boundsRectangle := v }
  | .setAccelerationX => { b with accelerationX := v }
  | .setAccelerationY => { b with accelerationY := v }
  | .setAllowDrag => { b with allowDrag := v }
  | .setAllowGravity => { b with allowGravity := v }
  | .setAllowRotation => { b with allowRotation := v }
  | .setBounceX => { b with bounceX := v }
  | .setBounceY => { b with bounceY := v }
  | .setDragX => { b with dragX := v }
  | .setDragY => { b with dragY := v }
  | .setEnable => { b with enable := v }
  | .setGravityX => { b with gravityX := v }
  | .setGravityY => { b with gravityY := v }
  | .setFrictionX => { b with frictionX := v }
  | .setFrictionY => { b with frictionY := v }
  | .setMaxVelocityX => { b with maxVelocityX := v }
  | .setMaxVelocityY => { b with maxVelocityY := v }
  | .setVelocityX => { b with velocityX := v }
  | .setVelocityY => { b with velocityY := v }
  | .setAngularVelocity => { b with angularVelocity := v }
  | .setAngularAcceleration => { b with angularAcceleration := v }
  | .setAngularDrag => { b with angularDrag := v }
  | .setMass => { b with mass := v }
  | .setImmovable => { b with immovable := v }

/-- Projection of the body slot written by a given setter key. -/
def getField (b : Body) : SetterKey → Value
  | .setCollideWorldBounds => b.collideWorldBounds
  | .setBoundsRectangle => b.boundsRectangle
  | .setAccelerationX => b.accelerationX
  | .setAccelerationY => b.accelerationY
  | .setAllowDrag => b.allowDrag
  | .setAllowGravity => b.allowGravity
  | .setAllowRotation => b.allowRotation
  | .setBounceX => b.bounceX
  | .setBounceY => b.bounceY
  | .setDragX => b.dragX
  | .setDragY => b.dragY
  | .setEnable => b.enable
  | .setGravityX => b.gravityX
  | .setGravityY => b.gravityY
  | .setFrictionX => b.frictionX
  | .setFrictionY => b.frictionY
  | .setMaxVelocityX => b.maxVelocityX
  | .setMaxVelocityY => b.maxVelocityY
  | .setVelocityX => b.velocityX
  | .setVelocityY => b.velocityY
  | .setAngularVelocity => b.angularVelocity
  | .setAngularAcceleration => b.angularAcceleration
  | .setAngularDrag => b.angularDrag
  | .setMass => b.mass
  | .setImmovable => b.immovable

/-- An entity (Game Object): an identity plus an optionally attached body. -/
structure Entity where
  eid : Nat
  body : Option Body
  deriving DecidableEq

/-- Observable calls performed on the external collaborators: attach and
detach requests to the Simulation World, and named setter invocations on a
member's body. -/
inductive CallEvent where
  | enableBody (eid : Nat) (bt : BodyType)
  | disableBody (eid : Nat)
  | setter (k : SetterKey) (v : Value)
  deriving DecidableEq

/-- A defaults table: the ordered entries of the object literal
`this.defaults = { ... }`, each a setter name paired with the optional
configuration value read for it. -/
abbrev DefaultsTable := List (SetterKey × Option Value)

/-- Entries of a defaults table that carry a defined value, in table order. -/
def definedSetters (d : DefaultsTable) : List (SetterKey × Value) :=
  d.filterMap (fun kv => kv.2.map (fun v => (kv.1, v)))

/-- Folding a list of setter invocations over a body state. -/
def applySetters (b : Body) (l : List (SetterKey × Value)) : Body :=
  l.foldl (fun b kv => applySetter b kv.1 kv.2) b

/-- The `for (var key in this.defaults)` loop of `createCallbackHandler`
(source lines 190-198): walk the table in declaration order, and for every
entry whose value is defined invoke the named setter with it, recording the
invocation in the trace. -/
def applyDefaults (b : Body) : DefaultsTable → Body × List CallEvent
  | [] => (b, [])
  | (_, none) :: t => applyDefaults b t
  | (k, some v) :: t =>
    let r := applyDefaults (applySetter b k v) t
    (r.1, CallEvent.setter k v :: r.2)

/-- `createCallbackHandler` (source lines 181-199): if the child has no body,
call `world.enableBody(child, CONST.DYNAMIC_BODY)` (modelled from the spec
as attaching a fresh dynamic body), then apply every defined defaults-table
entry to `child.body` in table order. Returns the updated child and the
trace of external calls made, in order. -/
def createCallbackHandler (d : DefaultsTable) (child : Entity) :
    Entity × List CallEvent :=
  let r0 : Entity × List CallEvent :=
    if child.body = none then
      ({ child with body := some zeroBody },
       [CallEvent.enableBody child.eid BodyType.dynamicBody])
    else
      (child, [])
  let b := r0.1.body.getD zeroBody
  let r1 := applyDefaults b d
  ({ r0.1 with body := some r1.1 }, r0.2 ++ r1.2)

/-- `removeCallbackHandler` (source lines 209-215): if the child has a body,
call `world.disableBody(child)` (modelled from the spec as detaching the
body); otherwise do nothing. Returns the updated child and the call trace. -/
def removeCallbackHandler (child : Entity) : Entity × List CallEvent :=
  if child.body.isSome then
    ({ child with body := none }, [CallEvent.disableBody child.eid])
  else
    (child, [])

/-- A hook reference stored in a configuration record: one of the two
internal handlers of the Physics Group, or some caller-supplied function. -/
inductive Hook where
  | createHandler
  | removeHandler
  | callerFn (n : Nat)
  deriving DecidableEq

/-- A class reference stored in the `classType` field: the `ArcadeSprite`
default, or some caller-supplied class. -/
inductive ClassType where
  | arcadeSprite
  | custom (n : Nat)
  deriving DecidableEq

/-- A plain configuration record. Every field is optional: `none` models an
absent (`undefined`) property, matching `GetFastValue(config, key,
undefined)`. The record carries the two internal hook fields, `classType`,
and the 25 optional physics default fields read at lines 132-156. -/
structure ConfigRecord where
  internalCreateCallback : Option Hook := none
  internalRemoveCallback : Option Hook := none
  classType : Option ClassType := none
  collideWorldBounds : Option Value := none
  customBoundsRectangle : Option Value := none
  accelerationX : Option Value := none
  accelerationY : Option Value := none
  allowDrag : Option Value := none
  allowGravity : Option Value := none
  allowRotation : Option Value := none
  bounceX : Option Value := none
  bounceY : Option Value := none
  dragX : Option Value := none
  dragY : Option Value := none
  enable : Option Value := none
  gravityX : Option Value := none
  gravityY : Option Value := none
  frictionX : Option Value := none
  frictionY : Option Value := none
  maxVelocityX : Option Value := none
  maxVelocityY : Option Value := none
  velocityX : Option Value := none
  velocityY : Option Value := none
  angularVelocity : Option Value := none
  angularAcceleration : Option Value := none
  angularDrag : Option Value := none
  mass : Option Value := none
  immovable : Option Value := none
  deriving DecidableEq

/-- The empty configuration record `{}`. -/
def emptyConfig : ConfigRecord := {}

/-- The defaults table built by the constructor (source lines 131-157): one
entry per object-literal line, in declaration order, each reading the named
optional configuration field via `GetFastValue(config, field, undefined)`. -/
def defaultsTable (c : ConfigRecord) : DefaultsTable :=
  [ (.setCollideWorldBounds, c.collideWorldBounds),
    (.setBoundsRectangle, c.customBoundsRectangle),
    (.setAccelerationX, c.accelerationX),
    (.setAccelerationY, c.accelerationY),
    (.setAllowDrag, c.allowDrag),
    (.setAllowGravity, c.allowGravity),
    (.setAllowRotation, c.allowRotation),
    (.setBounceX, c.bounceX),
    (.setBounceY, c.bounceY),
    (.setDragX, c.dragX),
    (.setDragY, c.dragY),
    (.setEnable, c.enable),
    (.setGravityX, c.gravityX),
    (.setGravityY, c.gravityY),
    (.setFrictionX, c.frictionX),
    (.setFrictionY, c.frictionY),
    (.setMaxVelocityX, c.maxVelocityX),
    (.setMaxVelocityY, c.maxVelocityY),
    (.setVelocityX, c.velocityX),
    (.setVelocityY, c.velocityY),
    (.setAngularVelocity, c.angularVelocity),
    (.setAngularAcceleration, c.angularAcceleration),
    (.setAngularDrag, c.angularDrag),
    (.setMass, c.mass),
    (.setImmovable, c.immovable) ]

/-- The 25 setter names in the declaration order of the defaults table. -/
def defaultsKeyOrder : List SetterKey :=
  [ .setCollideWorldBounds, .setBoundsRectangle,
    .setAccelerationX, .setAccelerationY,
    .setAllowDrag, .setAllowGravity, .setAllowRotation,
    .setBounceX, .setBounceY, .setDragX, .setDragY, .setEnable,
    .setGravityX, .setGravityY, .setFrictionX, .setFrictionY,
    .setMaxVelocityX, .setMaxVelocityY, .setVelocityX, .setVelocityY,
    .setAngularVelocity, .setAngularAcceleration, .setAngularDrag,
    .setMass, .setImmovable ]

/-- A heap of configuration records, so that in-place mutation of caller
supplied records (object identity in JavaScript) is observable. Addresses
are natural numbers. -/
abbrev Heap := Nat → ConfigRecord

/-- Heap update at one address. -/
def hupdate (h : Heap) (a : Nat) (c : ConfigRecord) : Heap :=
  fun b => if b = a then c else h b

/-- The assignments `config.internalCreateCallback = this.createCallbackHandler;
config.internalRemoveCallback = this.removeCallbackHandler;` applied to one
record. -/
def setHooks (c : ConfigRecord) : ConfigRecord :=
  { c with internalCreateCallback := some Hook.createHandler,
           internalRemoveCallback := some Hook.removeHandler }

/-- The assignment `config.classType = GetFastValue(config, 'classType',
ArcadeSprite);` (source line 110) applied to one record. -/
def setClassType (c : ConfigRecord) : ConfigRecord :=
  { c with classType := some (c.classType.getD ClassType.arcadeSprite) }

/-- The shapes the `children` constructor argument can take: absent
(`undefined`), a plain configuration record (`IsPlainObject(children)`), an
array whose first element is not a plain object (pre-built entities, given
by reference), or an array whose first element is a plain object
(configuration records, given by reference). -/
inductive ChildrenArg where
  | noChildren
  | plainConfig (r : Nat)
  | entityList (es : List Nat)
  | configList (rs : List Nat)
  deriving DecidableEq

/-- One step of the `children.forEach` loop of the config-array branch:
inject both internal hooks into the record at the given address. -/
def setHooksAt (h : Heap) (a : Nat) : Heap :=
  hupdate h a (setHooks (h a))

/-- The argument-normalisation branches of the constructor (source lines
51-89). Returns the heap after the branch's mutations, the address of the
record adopted as `config`, and the surviving `children` entity references
(`[]` when `children` ends up `null`/`undefined`). A fresh record `{ ... }`
is allocated at address `fresh`. -/
def resolveArgs (h : Heap) (fresh : Nat) (children : ChildrenArg)
    (config : Option Nat) : Heap × Nat × List Nat :=
  match children, config with
  | .noChildren, none =>
    (hupdate h fresh (setHooks emptyConfig), fresh, [])
  | .plainConfig r, _ =>
    (hupdate h r (setHooks (h r)), r, [])
  | .configList (r :: rs), _ =>
    ((r :: rs).foldl setHooksAt h, r, [])
  | .noChildren, some _ =>
    (hupdate h fresh (setHooks emptyConfig), fresh, [])
  | .configList [], _ =>
    (hupdate h fresh (setHooks emptyConfig), fresh, [])
  | .entityList es, _ =>
    (hupdate h fresh (setHooks emptyConfig), fresh, es)

/-- The outcome of the constructor body that precedes the `Group.call`
delegation: the final heap, the adopted configuration record's address, the
entity references handed to the base Group, the defaults table, and the
fixed physics type. -/
structure InitResult where
  heap : Heap
  configAddr : Nat
  childrenOut : List Nat
  defaults : DefaultsTable
  physicsType : BodyType

/-- The constructor `PhysicsGroup(world, scene, children, config)` (source
lines 49-159): normalise the arguments, write `classType` into the adopted
record, fix `physicsType` to `DYNAMIC_BODY`, and build the defaults table
from the adopted record. -/
def physicsGroupInit (h : Heap) (fresh : Nat) (children : ChildrenArg)
    (config : Option Nat) : InitResult :=
  let r := resolveArgs h fresh children config
  let h2 := hupdate r.1 r.2.1 (setClassType (r.1 r.2.1))
  { heap := h2, configAddr := r.2.1, childrenOut := r.2.2,
    defaults := defaultsTable (h2 r.2.1), physicsType := .dynamicBody }

/-- A Physics Group for the bulk velocity setters: an identity (so that
returning `this` is expressible) and the current ordered member sequence
returned by `getChildren()`. -/
structure PGroup where
  gid : Nat
  members : List Entity
  deriving DecidableEq

/-- The loop of `setVelocity` (source lines 235-238):
`items[i].body.velocity.set(x + (i * step), y + (i * step))`, started at
index `i`. Accessing `body` on a member without one is a fault, modelled as
`none`. -/
def velLoop (x y s : Int) : Nat → List Entity → Option (List Entity)
  | _, [] => some []
  | i, e :: es =>
    match e.body with
    | none => none
    | some b =>
      match velLoop x y s (i + 1) es with
      | none => none
      | some rest =>
        some ({ e with body := some { b with
                  velocityX := .num (x + (i : Int) * s),
                  velocityY := .num (y + (i : Int) * s) } } :: rest)

/-- `setVelocity(x, y, step)` (source lines 229-241): `step` defaults to 0
when omitted; each member's body velocity is set to
`(x + i*step, y + i*step)`; returns `this` (the same group, updated). -/
def PGroup.setVelocity (g : PGroup) (x y : Int) (step : Option Int) :
    Option PGroup :=
  let s := step.getD 0
  (velLoop x y s 0 g.members).map (fun ms => { g with members := ms })

/-- The loop of `setVelocityX` (source lines 260-263):
`items[i].body.velocity.x = value + (i * step)`, started at index `i`. -/
def velXLoop (v s : Int) : Nat → List Entity → Option (List Entity)
  | _, [] => some []
  | i, e :: es =>
    match e.body with
    | none => none
    | some b =>
      match velXLoop v s (i + 1) es with
      | none => none
      | some rest =>
        some ({ e with body := some { b with
                  velocityX := .num (v + (i : Int) * s) } } :: rest)

/-- `setVelocityX(value, step)` (source lines 254-266). -/
def PGroup.setVelocityX (g : PGroup) (v : Int) (step : Option Int) :
    Option PGroup :=
  let s := step.getD 0
  (velXLoop v s 0 g.members).map (fun ms => { g with members := ms })

/-- The loop of `setVelocityY` (source lines 285-288). -/
def velYLoop (v s : Int) : Nat → List Entity → Option (List Entity)
  | _, [] => some []
  | i, e :: es =>
    match e.body with
    | none => none
    | some b =>
      match velYLoop v s (i + 1) es with
      | none => none
      | some rest =>
        some ({ e with body := some { b with
                  velocityY := .num (v + (i : Int) * s) } } :: rest)

/-- `setVelocityY(value, step)` (source lines 279-291). -/
def PGroup.setVelocityY (g : PGroup) (v : Int) (step : Option Int) :
    Option PGroup :=
  let s := step.getD 0
  (velYLoop v s 0 g.members).map (fun ms => { g with members := ms })

/-! Helper lemmas. -/

theorem hupdate_same (h : Heap) (a : Nat) (c : ConfigRecord) :
    hupdate h a c a = c := by
  simp [hupdate]

theorem hupdate_other (h : Heap) (a : Nat) (c : ConfigRecord) (b : Nat)
    (hne : b ≠ a) : hupdate h a c b = h b := by
  simp [hupdate, hne]

/-- Both internal hook fields of a record point at the internal handlers. -/
def HooksSet (c : ConfigRecord) : Prop :=
  c.internalCreateCallback = some Hook.createHandler ∧
  c.internalRemoveCallback = some Hook.removeHandler

theorem hooksSet_setHooks (c : ConfigRecord) : HooksSet (setHooks c) := by
  constructor <;> rfl

theorem hooksSet_setClassType (c : ConfigRecord) (h : HooksSet c) :
    HooksSet (setClassType c) := h

theorem setHooksAt_preserve (h : Heap) (a r : Nat) (hr : HooksSet (h r)) :
    HooksSet (setHooksAt h a r) := by
  unfold setHooksAt hupdate
  by_cases hra : r = a
  · subst hra; simp [hooksSet_setHooks]
  · simpa [hra] using hr

theorem fold_hooks_preserve (l : List Nat) (h : Heap) (r : Nat)
    (hr : HooksSet (h r)) : HooksSet ((l.foldl setHooksAt h) r) := by
  induction l generalizing h with
  | nil => exact hr
  | cons a t ih => exact ih (setHooksAt h a) (setHooksAt_preserve h a r hr)

theorem fold_hooks_mem (l : List Nat) (h : Heap) (r : Nat) (hr : r ∈ l) :
    HooksSet ((l.foldl setHooksAt h) r) := by
  induction l generalizing h with
  | nil => cases hr
  | cons a t ih =>
    rcases List.mem_cons.mp hr with hra | hrt
    · subst hra
      refine fold_hooks_preserve t (setHooksAt h r) r ?_
      simp [setHooksAt, hupdate_same, hooksSet_setHooks]
    · exact ih (setHooksAt h a) hrt

/-- The config-array fold only writes the two hook fields: every other
field of every record is untouched. -/
theorem setHooksAt_classType (h : Heap) (a r : Nat) :
    (setHooksAt h a r).classType = (h r).classType := by
  unfold setHooksAt hupdate setHooks
  by_cases hra : r = a <;> simp [hra]

theorem fold_hooks_classType (l : List Nat) (h : Heap) (r : Nat) :
    ((l.foldl setHooksAt h) r).classType = (h r).classType := by
  induction l generalizing h with
  | nil => rfl
  | cons a t ih => rw [List.foldl_cons, ih, setHooksAt_classType]

/-- Writing a setter affects exactly its own slot. -/
theorem getField_applySetter (b : Body) (k : SetterKey) (v : Value)
    (k' : SetterKey) :
    getField (applySetter b k v) k' = if k' = k then v else getField b k' := by
  cases k <;> cases k' <;> simp [applySetter, getField]

/-- Bodies agreeing on every slot are equal. -/
theorem body_ext (b b' : Body) (h : ∀ k, getField b k = getField b' k) :
    b = b' := by
  cases b; cases b'
  simp only [Body.mk.injEq]
  exact ⟨h .setCollideWorldBounds, h .setBoundsRectangle,
    h .setAccelerationX, h .setAccelerationY, h .setAllowDrag,
    h .setAllowGravity, h .setAllowRotation, h .setBounceX, h .setBounceY,
    h .setDragX, h .setDragY, h .setEnable, h .setGravityX, h .setGravityY,
    h .setFrictionX, h .setFrictionY, h .setMaxVelocityX, h .setMaxVelocityY,
    h .setVelocityX, h .setVelocityY, h .setAngularVelocity,
    h .setAngularAcceleration, h .setAngularDrag, h .setMass, h .setImmovable⟩

/-- The last value a setter-invocation list writes to a given slot. -/
def lastWrite (k : SetterKey) : List (SetterKey × Value) → Option Value
  | [] => none
  | kv :: t =>
    match lastWrite k t with
    | some w => some w
    | none => if kv.1 = k then some kv.2 else none

theorem lastWrite_cons (k : SetterKey) (kv : SetterKey × Value)
    (t : List (SetterKey × Value)) :
    lastWrite k (kv :: t) =
      match lastWrite k t with
      | some w => some w
      | none => if kv.1 = k then some kv.2 else none := rfl

theorem definedSetters_cons_none (k : SetterKey) (t : DefaultsTable) :
    definedSetters ((k, none) :: t) = definedSetters t := rfl

theorem definedSetters_cons_some (k : SetterKey) (v : Value)
    (t : DefaultsTable) :
    definedSetters ((k, some v) :: t) = (k, v) :: definedSetters t := rfl

theorem getField_applySetters (b : Body) (l : List (SetterKey × Value))
    (k : SetterKey) :
    getField (applySetters b l) k = (lastWrite k l).getD (getField b k) := by
  induction l generalizing b with
  | nil => rfl
  | cons kv t ih =>
    show getField (applySetters (applySetter b kv.1 kv.2) t) k = _
    rw [ih, getField_applySetter, lastWrite_cons]
    cases hlw : lastWrite k t with
    | some w => simp
    | none =>
      by_cases hk : kv.1 = k
      · simp [hk]
      · simp [hk, Ne.symm hk]

/-- Re-applying the same setter-invocation list is a pure overwrite: the
second pass changes nothing. -/
theorem applySetters_idem (b : Body) (l : List (SetterKey × Value)) :
    applySetters (applySetters b l) l = applySetters b l := by
  apply body_ext
  intro k
  rw [getField_applySetters, getField_applySetters]
  cases lastWrite k l <;> simp

/-- The defaults walk computes the fold of the defined entries and emits one
setter event per defined entry, in table order. -/
theorem applyDefaults_spec (d : DefaultsTable) (b : Body) :
    applyDefaults b d = (applySetters b (definedSetters d),
      (definedSetters d).map (fun kv => CallEvent.setter kv.1 kv.2)) := by
  induction d generalizing b with
  | nil => rfl
  | cons kv t ih =>
    obtain ⟨k, o⟩ := kv
    cases o with
    | none =>
      simp only [applyDefaults, ih, definedSetters_cons_none]
    | some v =>
      simp only [applyDefaults, ih, definedSetters_cons_some, List.map_cons,
        applySetters, List.foldl_cons]

/-- Keys of the defined entries form a sublist of the table's key order. -/
theorem definedSetters_keys_sublist (d : DefaultsTable) :
    List.Sublist ((definedSetters d).map Prod.fst) (d.map Prod.fst) := by
  induction d with
  | nil => exact List.Sublist.refl []
  | cons kv t ih =>
    obtain ⟨k, o⟩ := kv
    cases o with
    | none =>
      rw [definedSetters_cons_none, List.map_cons]
      exact List.Sublist.cons k ih
    | some v =>
      rw [definedSetters_cons_some, List.map_cons, List.map_cons]
      exact List.Sublist.cons₂ k ih

/-- Modelled from the spec: the velocity update the spec assigns to the
member at absolute index `j`, "set velocity component(s) to base + i * step"
for both axes, leaving the rest of the entity and body unchanged. -/
def specStepVel (x y s : Int) (j : Nat) (e : Entity) : Entity :=
  { e with body := e.body.map (fun b => { b with
      velocityX := Value.num (x + (j : Int) * s),
      velocityY := Value.num (y + (j : Int) * s) }) }

/-- Modelled from the spec: apply `specStepVel` to each member, indices
counted from `n`. -/
def specStepVelocities (x y s : Int) : Nat → List Entity → List Entity
  | _, [] => []
  | n, e :: es => specStepVel x y s n e :: specStepVelocities x y s (n + 1) es

theorem velLoop_eq (x y s : Int) (ms : List Entity) (n : Nat)
    (hb : ∀ e ∈ ms, e.body.isSome) :
    velLoop x y s n ms = some (specStepVelocities x y s n ms) := by
  induction ms generalizing n with
  | nil => rfl
  | cons e es ih =>
    obtain ⟨b, hbb⟩ := Option.isSome_iff_exists.mp (hb e (List.mem_cons_self e es))
    have hrest : ∀ e ∈ es, e.body.isSome := fun e he => hb e (List.mem_cons_of_mem _ he)
    simp only [velLoop, hbb, ih (n + 1) hrest, specStepVelocities, specStepVel, hbb,
      Option.map_some']

theorem specStepVelocities_length (x y s : Int) (n : Nat) (ms : List Entity) :
    (specStepVelocities x y s n ms).length = ms.length := by
  induction ms generalizing n with
  | nil => rfl
  | cons e es ih => simp [specStepVelocities, ih]

theorem specStepVelocities_get (x y s : Int) (ms : List Entity) (n i : Nat)
    (hi : i < ms.length) (hi' : i < (specStepVelocities x y s n ms).length) :
    (specStepVelocities x y s n ms).get ⟨i, hi'⟩ =
      specStepVel x y s (n + i) (ms.get ⟨i, hi⟩) := by
  induction ms generalizing n i with
  | nil => cases hi
  | cons e es ih =>
    cases i with
    | zero => rfl
    | succ j =>
      have hj : j < es.length := Nat.lt_of_succ_lt_succ hi
      have hj' : j < (specStepVelocities x y s (n + 1) es).length := by
        rw [specStepVelocities_length]; exact hj
      have := ih (n + 1) j hj hj'
      simpa [specStepVelocities, Nat.add_assoc, Nat.add_comm 1 j] using this

theorem velXLoop_zero (v : Int) (ms : List Entity) (n : Nat)
    (hb : ∀ e ∈ ms, e.body.isSome) :
    velXLoop v 0 n ms = some (ms.map (fun e =>
      { e with body := e.body.map (fun b =>
          { b with velocityX := Value.num v }) })) := by
  induction ms generalizing n with
  | nil => rfl
  | cons e es ih =>
    obtain ⟨b, hbb⟩ := Option.isSome_iff_exists.mp (hb e (List.mem_cons_self e es))
    have hrest : ∀ e ∈ es, e.body.isSome := fun e he => hb e (List.mem_cons_of_mem _ he)
    simp only [velXLoop, hbb, ih (n + 1) hrest, List.map_cons, Option.map_some',
      mul_zero, add_zero]

/-! Claim theorems. -/

/-- C3: for every numeric `x`, `y`, `step` and every current member sequence,
`setVelocity(x, y, step)` sets the i-th member's body velocity (0-indexed, in
member order at call time) to `(x + i*step, y + i*step)`, with `step`
defaulting to 0 when omitted, and returns the Physics Group itself. -/
theorem c3_setVelocity_steps (g : PGroup) (x y s : Int)
    (hb : ∀ e ∈ g.members, e.body.isSome) :
    (∃ g', PGroup.setVelocity g x y (some s) = some g' ∧
      g'.gid = g.gid ∧
      g'.members.length = g.members.length ∧
      ∀ i (hi : i < g.members.length) (hi' : i < g'.members.length),
        g'.members.get ⟨i, hi'⟩ =
          { g.members.get ⟨i, hi⟩ with
            body := (g.members.get ⟨i, hi⟩).body.map (fun b => { b with
              velocityX := Value.num (x + (i : Int) * s),
              velocityY := Value.num (y + (i : Int) * s) }) }) ∧
    PGroup.setVelocity g x y none = PGroup.setVelocity g x y (some 0) := by
  constructor
  · refine ⟨{ g with members := specStepVelocities x y s 0 g.members }, ?_, rfl, ?_, ?_⟩
    · simp [PGroup.setVelocity, velLoop_eq x y s g.members 0 hb]
    · simp [specStepVelocities_length]
    · intro i hi hi'
      have := specStepVelocities_get x y s g.members 0 i hi hi'
      simpa [specStepVel] using this
  · rfl

/-- Closed instance of the C3 theorem, at the spec's own example:
`setVelocity(10, 20, 5)` on a 3-member group yields velocities
`(10,20)`, `(15,25)`, `(20,30)` in member order. -/
theorem c3_setVelocity_steps_witness :
    (∀ e ∈ (PGroup.mk 7 [⟨0, some zeroBody⟩, ⟨1, some zeroBody⟩,
        ⟨2, some zeroBody⟩]).members, e.body.isSome) ∧
    ((∃ g', PGroup.setVelocity (PGroup.mk 7 [⟨0, some zeroBody⟩,
        ⟨1, some zeroBody⟩, ⟨2, some zeroBody⟩]) 10 20 (some 5) = some g' ∧
      g'.gid = (PGroup.mk 7 [⟨0, some zeroBody⟩, ⟨1, some zeroBody⟩,
        ⟨2, some zeroBody⟩]).gid ∧
      g'.members.length = 3 ∧
      ∀ i (hi : i < (3 : Nat)) (hi' : i < g'.members.length),
        g'.members.get ⟨i, hi'⟩ =
          { ([(⟨0, some zeroBody⟩ : Entity), ⟨1, some zeroBody⟩,
              ⟨2, some zeroBody⟩].get ⟨i, hi⟩) with
            body := (([(⟨0, some zeroBody⟩ : Entity), ⟨1, some zeroBody⟩,
              ⟨2, some zeroBody⟩].get ⟨i, hi⟩)).body.map (fun b => { b with
              velocityX := Value.num (10 + (i : Int) * 5),
              velocityY := Value.num (20 + (i : Int) * 5) }) }) ∧
      PGroup.setVelocity (PGroup.mk 7 [⟨0, some zeroBody⟩, ⟨1, some zeroBody⟩,
        ⟨2, some zeroBody⟩]) 10 20 none =
      PGroup.setVelocity (PGroup.mk 7 [⟨0, some zeroBody⟩, ⟨1, some zeroBody⟩,
        ⟨2, some zeroBody⟩]) 10 20 (some 0)) ∧
    (PGroup.setVelocity (PGroup.mk 7 [⟨0, some zeroBody⟩, ⟨1, some zeroBody⟩,
        ⟨2, some zeroBody⟩]) 10 20 (some 5)).map
      (fun g' => g'.members.map (fun e => e.body.map
        (fun b => (b.velocityX, b.velocityY)))) =
      some [some (Value.num 10, Value.num 20), some (Value.num 15, Value.num 25),
            some (Value.num 20, Value.num 30)] :=
  ⟨by decide,
   c3_setVelocity_steps (PGroup.mk 7 [⟨0, some zeroBody⟩, ⟨1, some zeroBody⟩,
     ⟨2, some zeroBody⟩]) 10 20 5 (by decide),
   by decide⟩

/-- C8: `setVelocityX(value)` with the step omitted sets every member's body
velocity X slot to exactly `value`, and leaves the velocity Y slot, every
other body slot, the member identities, order, and the group itself
otherwise unchanged. -/
theorem c8_setVelocityX_uniform (g : PGroup) (v : Int)
    (hb : ∀ e ∈ g.members, e.body.isSome) :
    PGroup.setVelocityX g v none =
      some { g with members := g.members.map (fun e =>
        { e with body := e.body.map (fun b =>
            { b with velocityX := Value.num v }) }) } := by
  simp [PGroup.setVelocityX, velXLoop_zero v g.members 0 hb]

/-- Closed instance of the C8 theorem on a concrete 2-member group with
distinct pre-existing velocities. -/
theorem c8_setVelocityX_uniform_witness :
    (∀ e ∈ (PGroup.mk 3 [⟨0, some { zeroBody with velocityY := Value.num 9 }⟩,
        ⟨1, some zeroBody⟩]).members, e.body.isSome) ∧
    PGroup.setVelocityX (PGroup.mk 3 [⟨0, some { zeroBody with
        velocityY := Value.num 9 }⟩, ⟨1, some zeroBody⟩]) 100 none =
      some { (PGroup.mk 3 [⟨0, some { zeroBody with velocityY := Value.num 9 }⟩,
          ⟨1, some zeroBody⟩]) with
        members := [⟨0, some { zeroBody with velocityY := Value.num 9 }⟩,
          (⟨1, some zeroBody⟩ : Entity)].map (fun e =>
          { e with body := e.body.map (fun b =>
              { b with velocityX := Value.num 100 }) }) } :=
  ⟨by decide,
   c8_setVelocityX_uniform (PGroup.mk 3 [⟨0, some { zeroBody with
     velocityY := Value.num 9 }⟩, ⟨1, some zeroBody⟩]) 100 (by decide)⟩

theorem create_trace_eq (d : DefaultsTable) (e : Entity) :
    (createCallbackHandler d e).2 =
      (if e.body = none
       then [CallEvent.enableBody e.eid BodyType.dynamicBody] else []) ++
      (definedSetters d).map (fun kv => CallEvent.setter kv.1 kv.2) := by
  cases hbb : e.body with
  | none => simp [createCallbackHandler, hbb, applyDefaults_spec]
  | some b => simp [createCallbackHandler, hbb, applyDefaults_spec]

/-- C1: the creation hook's external-call trace is exactly one
`world.enableBody(child, DYNAMIC_BODY)` call when the entity has no body and
none when it already has one, followed in either case by one invocation of
every defined defaults-table setter. -/
theorem c1_createCallbackHandler_trace (d : DefaultsTable) (e : Entity) :
    (createCallbackHandler d e).2 =
      (if e.body = none
       then [CallEvent.enableBody e.eid BodyType.dynamicBody] else []) ++
      (definedSetters d).map (fun kv => CallEvent.setter kv.1 kv.2) :=
  create_trace_eq d e

/-- C5: the removal hook makes exactly one `world.disableBody(entity)` call
when the entity has a body (the body is then detached), and makes no call
and changes nothing when it has none. -/
theorem c5_removeCallbackHandler_trace (e : Entity) :
    removeCallbackHandler e =
      (if e.body.isSome then { e with body := none } else e,
       if e.body.isSome then [CallEvent.disableBody e.eid] else []) := by
  cases hbb : e.body with
  | none => simp [removeCallbackHandler, hbb]
  | some b => simp [removeCallbackHandler, hbb]

/-- Extract the body-setter invocations from a call trace. -/
def setterPart : CallEvent → Option (SetterKey × Value)
  | .setter k v => some (k, v)
  | _ => none

theorem filterMap_setterPart_comp (l : List (SetterKey × Value)) :
    List.filterMap (setterPart ∘ fun kv => CallEvent.setter kv.1 kv.2) l = l := by
  induction l with
  | nil => rfl
  | cons kv t ih => simp [setterPart, Function.comp, ih]

/-- A configuration defining both bounds-related fields, used to exhibit the
actual invocation order of `setCollideWorldBounds` and
`setBoundsRectangle`. -/
def bothBoundsConfig : ConfigRecord :=
  { emptyConfig with
    collideWorldBounds := some (Value.bool true),
    customBoundsRectangle := some (Value.rect 0 0 100 100) }

/-- Counterexample to C6 as stated: with both bounds fields defined, the
creation hook invokes `setCollideWorldBounds` first and `setBoundsRectangle`
second — `setBoundsRectangle` is not invoked before `setCollideWorldBounds`,
contrary to the claim's parenthetical example. -/
theorem c6_order_counterexample :
    (createCallbackHandler (defaultsTable bothBoundsConfig)
        ⟨0, some zeroBody⟩).2 =
      [CallEvent.setter .setCollideWorldBounds (Value.bool true),
       CallEvent.setter .setBoundsRectangle (Value.rect 0 0 100 100)] ∧
    ¬ List.indexOf
        (CallEvent.setter .setBoundsRectangle (Value.rect 0 0 100 100))
        (createCallbackHandler (defaultsTable bothBoundsConfig)
          ⟨0, some zeroBody⟩).2 <
      List.indexOf
        (CallEvent.setter .setCollideWorldBounds (Value.bool true))
        (createCallbackHandler (defaultsTable bothBoundsConfig)
          ⟨0, some zeroBody⟩).2 := by
  constructor
  · decide
  · decide

/-- C6 (amended): during the creation hook, the sequence of body-setter
invocations equals the defaults table's entries filtered to those with a
defined value, taken exactly in the table's declaration order as enumerated
in section 4.1 — `setCollideWorldBounds` first, then `setBoundsRectangle`,
and so on; the invoked setter names always form a sublist of that
declaration order. -/
theorem c6_setter_order (c : ConfigRecord) (e : Entity) :
    ((createCallbackHandler (defaultsTable c) e).2.filterMap setterPart =
      definedSetters (defaultsTable c)) ∧
    (defaultsTable c).map Prod.fst = defaultsKeyOrder ∧
    List.Sublist ((definedSetters (defaultsTable c)).map Prod.fst)
      defaultsKeyOrder := by
  refine ⟨?_, rfl, ?_⟩
  · rw [create_trace_eq]
    cases e.body with
    | none => simp [setterPart, filterMap_setterPart_comp]
    | some b => simp [filterMap_setterPart_comp]
  · have := definedSetters_keys_sublist (defaultsTable c)
    simpa using this

/-- C7: on an entity that already carries a body, one run of the creation
hook makes no attach call and applies the defined defaults-table setters;
a second run makes no attach call either, repeats the same setter trace, and
leaves the entity exactly as after the first run — the defaults application
is a pure overwrite, so the double application is observationally
idempotent. -/
theorem c7_create_hook_idempotent (c : ConfigRecord) (e : Entity) (b : Body)
    (hb : e.body = some b) :
    ((createCallbackHandler (defaultsTable c) e).2 =
      (definedSetters (defaultsTable c)).map
        (fun kv => CallEvent.setter kv.1 kv.2)) ∧
    ((createCallbackHandler (defaultsTable c)
        (createCallbackHandler (defaultsTable c) e).1).2 =
      (createCallbackHandler (defaultsTable c) e).2) ∧
    (createCallbackHandler (defaultsTable c)
        (createCallbackHandler (defaultsTable c) e).1).1 =
      (createCallbackHandler (defaultsTable c) e).1 := by
  have h1 : createCallbackHandler (defaultsTable c) e =
      ({ e with body := some (applySetters b
          (definedSetters (defaultsTable c))) },
       (definedSetters (defaultsTable c)).map
         (fun kv => CallEvent.setter kv.1 kv.2)) := by
    simp [createCallbackHandler, hb, applyDefaults_spec]
  have h2 : createCallbackHandler (defaultsTable c)
      { e with body := some (applySetters b
          (definedSetters (defaultsTable c))) } =
      ({ e with body := some (applySetters (applySetters b
          (definedSetters (defaultsTable c)))
          (definedSetters (defaultsTable c))) },
       (definedSetters (defaultsTable c)).map
         (fun kv => CallEvent.setter kv.1 kv.2)) := by
    simp [createCallbackHandler, applyDefaults_spec]
  rw [h1, h2, applySetters_idem]
  exact ⟨rfl, rfl, rfl⟩

/-- Closed instance of the C7 theorem: a config defining a velocity X
default, applied twice to an entity that already has a body. -/
theorem c7_create_hook_idempotent_witness :
    ((⟨4, some zeroBody⟩ : Entity).body = some zeroBody) ∧
    (((createCallbackHandler (defaultsTable { emptyConfig with
        velocityX := some (Value.num 3) }) ⟨4, some zeroBody⟩).2 =
      (definedSetters (defaultsTable { emptyConfig with
        velocityX := some (Value.num 3) })).map
        (fun kv => CallEvent.setter kv.1 kv.2)) ∧
    ((createCallbackHandler (defaultsTable { emptyConfig with
        velocityX := some (Value.num 3) })
        (createCallbackHandler (defaultsTable { emptyConfig with
          velocityX := some (Value.num 3) }) ⟨4, some zeroBody⟩).1).2 =
      (createCallbackHandler (defaultsTable { emptyConfig with
        velocityX := some (Value.num 3) }) ⟨4, some zeroBody⟩).2) ∧
    (createCallbackHandler (defaultsTable { emptyConfig with
        velocityX := some (Value.num 3) })
        (createCallbackHandler (defaultsTable { emptyConfig with
          velocityX := some (Value.num 3) }) ⟨4, some zeroBody⟩).1).1 =
      (createCallbackHandler (defaultsTable { emptyConfig with
        velocityX := some (Value.num 3) }) ⟨4, some zeroBody⟩).1) :=
  ⟨rfl, c7_create_hook_idempotent { emptyConfig with
    velocityX := some (Value.num 3) } ⟨4, some zeroBody⟩ zeroBody rfl⟩

theorem mem_definedSetters (d : DefaultsTable) (k : SetterKey) (v : Value) :
    (k, v) ∈ definedSetters d ↔ (k, some v) ∈ d := by
  induction d with
  | nil => simp [definedSetters]
  | cons kv t ih =>
    obtain ⟨k', o⟩ := kv
    cases o with
    | none =>
      rw [definedSetters_cons_none, ih]
      simp
    | some w =>
      rw [definedSetters_cons_some]
      simp [ih, Prod.ext_iff]

theorem setter_mem_trace (d : DefaultsTable) (e : Entity) (k : SetterKey)
    (v : Value) :
    CallEvent.setter k v ∈ (createCallbackHandler d e).2 ↔
      (k, v) ∈ definedSetters d := by
  rw [create_trace_eq]
  cases e.body with
  | none => simp [List.mem_append, List.mem_map, Prod.ext_iff]
  | some b => simp [List.mem_append, List.mem_map, Prod.ext_iff]

/-- Counterexample to C4 as stated: the defaults table does not consist of
24 entries — it has 25, one per field in the spec's own enumeration. -/
theorem c4_count_counterexample :
    (defaultsTable emptyConfig).length ≠ 24 ∧
    (defaultsTable emptyConfig).length = 25 := by
  constructor
  · decide
  · decide

/-- C4 (amended): the defaults table built by the constructor reads exactly
the 25 named optional configuration fields enumerated in the spec, each
entry mapping to one specific named body setter (the key list is exactly
`defaultsKeyOrder`, without repetition); an entry whose field is absent
(`none`) never has its setter invoked by the creation hook, rather than
being defaulted to zero, and an entry whose field is present always does. -/
theorem c4_defaults_fields (c : ConfigRecord) (e : Entity) :
    (defaultsTable c).length = 25 ∧
    (defaultsTable c).map Prod.fst = defaultsKeyOrder ∧
    List.Nodup defaultsKeyOrder ∧
    ∀ kv ∈ defaultsTable c,
      (kv.2 = none → ∀ v : Value,
        CallEvent.setter kv.1 v ∉ (createCallbackHandler (defaultsTable c) e).2) ∧
      (∀ v : Value, kv.2 = some v →
        CallEvent.setter kv.1 v ∈ (createCallbackHandler (defaultsTable c) e).2) := by
  have hkeys : (defaultsTable c).map Prod.fst = defaultsKeyOrder := rfl
  have hnodup : List.Nodup ((defaultsTable c).map Prod.fst) := by
    rw [hkeys]; decide
  refine ⟨rfl, hkeys, by decide, ?_⟩
  intro kv hkv
  constructor
  · intro hnone v hmem
    rw [setter_mem_trace, mem_definedSetters] at hmem
    have heq : kv = (kv.1, some v) :=
      List.inj_on_of_nodup_map hnodup hkv hmem rfl
    rw [heq] at hnone
    exact Option.noConfusion hnone
  · intro v hsome
    rw [setter_mem_trace, mem_definedSetters]
    have heq : (kv.1, some v) = kv := by
      rw [← hsome]
    rwa [heq]

/-- Closed instance of the C4 amended theorem, at a configuration defining
`dragX` but not `dragY`. -/
theorem c4_defaults_fields_witness :
    ((.setDragY, (none : Option Value)) ∈
      defaultsTable { emptyConfig with dragX := some (Value.num 6) }) ∧
    ((.setDragX, some (Value.num 6)) ∈
      defaultsTable { emptyConfig with dragX := some (Value.num 6) }) ∧
    (defaultsTable { emptyConfig with dragX := some (Value.num 6) }).length = 25 ∧
    (∀ kv ∈ defaultsTable { emptyConfig with dragX := some (Value.num 6) },
      (kv.2 = none → ∀ v : Value,
        CallEvent.setter kv.1 v ∉ (createCallbackHandler
          (defaultsTable { emptyConfig with dragX := some (Value.num 6) })
          ⟨2, none⟩).2) ∧
      (∀ v : Value, kv.2 = some v →
        CallEvent.setter kv.1 v ∈ (createCallbackHandler
          (defaultsTable { emptyConfig with dragX := some (Value.num 6) })
          ⟨2, none⟩).2)) :=
  ⟨by decide, by decide,
   (c4_defaults_fields { emptyConfig with dragX := some (Value.num 6) }
     ⟨2, none⟩).1,
   (c4_defaults_fields { emptyConfig with dragX := some (Value.num 6) }
     ⟨2, none⟩).2.2.2⟩

theorem init_heap_eq (h : Heap) (fresh : Nat) (children : ChildrenArg)
    (config : Option Nat) :
    (physicsGroupInit h fresh children config).heap =
      hupdate (resolveArgs h fresh children config).1
        (resolveArgs h fresh children config).2.1
        (setClassType ((resolveArgs h fresh children config).1
          (resolveArgs h fresh children config).2.1)) := rfl

theorem init_configAddr_eq (h : Heap) (fresh : Nat) (children : ChildrenArg)
    (config : Option Nat) :
    (physicsGroupInit h fresh children config).configAddr =
      (resolveArgs h fresh children config).2.1 := rfl

theorem init_heap_configAddr (h : Heap) (fresh : Nat) (children : ChildrenArg)
    (config : Option Nat) :
    (physicsGroupInit h fresh children config).heap
        (physicsGroupInit h fresh children config).configAddr =
      setClassType ((resolveArgs h fresh children config).1
        (resolveArgs h fresh children config).2.1) := by
  rw [init_heap_eq, init_configAddr_eq, hupdate_same]

theorem resolveArgs_plainConfig (h : Heap) (fresh r : Nat)
    (config : Option Nat) :
    resolveArgs h fresh (.plainConfig r) config =
      (hupdate h r (setHooks (h r)), r, []) := rfl

theorem resolveArgs_configList_cons (h : Heap) (fresh r : Nat) (rs : List Nat)
    (config : Option Nat) :
    resolveArgs h fresh (.configList (r :: rs)) config =
      ((r :: rs).foldl setHooksAt h, r, []) := rfl

theorem resolveArgs_entityList (h : Heap) (fresh : Nat) (es : List Nat)
    (config : Option Nat) :
    resolveArgs h fresh (.entityList es) config =
      (hupdate h fresh (setHooks emptyConfig), fresh, es) := rfl

theorem resolveArgs_hooksSet (h : Heap) (fresh : Nat) (children : ChildrenArg)
    (config : Option Nat) :
    HooksSet ((resolveArgs h fresh children config).1
      (resolveArgs h fresh children config).2.1) := by
  cases children with
  | noChildren =>
    cases config with
    | none => simpa [resolveArgs, hupdate_same] using hooksSet_setHooks emptyConfig
    | some c => simpa [resolveArgs, hupdate_same] using hooksSet_setHooks emptyConfig
  | plainConfig r =>
    simpa [resolveArgs, hupdate_same] using hooksSet_setHooks (h r)
  | entityList es =>
    simpa [resolveArgs, hupdate_same] using hooksSet_setHooks emptyConfig
  | configList rs =>
    cases rs with
    | nil => simpa [resolveArgs, hupdate_same] using hooksSet_setHooks emptyConfig
    | cons r rs =>
      simpa [resolveArgs] using fold_hooks_mem (r :: rs) h r
        (List.mem_cons_self r rs)

/-- C2: for every construction-argument shape, the configuration record the
constructor resolves and passes to the base Group has
`internalCreateCallback` set to the creation handler and
`internalRemoveCallback` set to the removal handler, overriding any
caller-supplied values of those fields. -/
theorem c2_internal_hooks_injected (h : Heap) (fresh : Nat)
    (children : ChildrenArg) (config : Option Nat) :
    HooksSet ((physicsGroupInit h fresh children config).heap
      (physicsGroupInit h fresh children config).configAddr) := by
  rw [init_heap_configAddr]
  exact hooksSet_setClassType _ (resolveArgs_hooksSet h fresh children config)

/-- C9: when `children` is an array of pre-built entities and a separate
configuration record is also supplied, that configuration is discarded: the
adopted configuration is the fresh record holding only the two internal
hooks (plus the default `classType` written afterwards), every
defaults-table entry is unset, and the creation hook consequently invokes no
setter at all; the entity array itself is passed through. -/
theorem c9_entity_array_discards_config (h : Heap) (fresh : Nat)
    (es : List Nat) (r : Nat) (e : Entity) :
    (physicsGroupInit h fresh (.entityList es) (some r)).configAddr = fresh ∧
    (physicsGroupInit h fresh (.entityList es) (some r)).heap fresh =
      setClassType (setHooks emptyConfig) ∧
    (physicsGroupInit h fresh (.entityList es) (some r)).childrenOut = es ∧
    (physicsGroupInit h fresh (.entityList es) (some r)).defaults =
      defaultsTable emptyConfig ∧
    definedSetters
      ((physicsGroupInit h fresh (.entityList es) (some r)).defaults) = [] ∧
    ((physicsGroupInit h fresh (.entityList es) (some r)).heap
        fresh).classType = some ClassType.arcadeSprite ∧
    (createCallbackHandler
        ((physicsGroupInit h fresh (.entityList es) (some r)).defaults) e).2 =
      (if e.body = none
       then [CallEvent.enableBody e.eid BodyType.dynamicBody] else []) := by
  have hheap : (physicsGroupInit h fresh (.entityList es) (some r)).heap fresh =
      setClassType (setHooks emptyConfig) := by
    rw [init_heap_eq, resolveArgs_entityList]
    simp [hupdate_same]
  have hdef : (physicsGroupInit h fresh (.entityList es) (some r)).defaults =
      defaultsTable emptyConfig := by
    show defaultsTable ((physicsGroupInit h fresh (.entityList es)
      (some r)).heap (physicsGroupInit h fresh (.entityList es)
        (some r)).configAddr) = _
    rw [init_configAddr_eq, resolveArgs_entityList]
    show defaultsTable ((physicsGroupInit h fresh (.entityList es)
      (some r)).heap fresh) = _
    rw [hheap]
    rfl
  refine ⟨rfl, hheap, rfl, hdef, ?_, ?_, ?_⟩
  · rw [hdef]
    rfl
  · rw [hheap]
    rfl
  · rw [hdef, create_trace_eq]
    have hempty : definedSetters (defaultsTable emptyConfig) = [] := rfl
    rw [hempty]
    simp

/-- C10: when `children` is a plain configuration record or an array of
configuration records, the caller's own record(s) are mutated in place: the
record itself is adopted as the configuration (same address), both internal
hook fields are written into each supplied record, and `classType` is
written into the adopted record. -/
theorem c10_in_place_mutation (h : Heap) (fresh r : Nat) (rs : List Nat)
    (cfg cfg2 : Option Nat) :
    ((physicsGroupInit h fresh (.plainConfig r) cfg).configAddr = r ∧
     (physicsGroupInit h fresh (.plainConfig r) cfg).heap r =
       setClassType (setHooks (h r))) ∧
    ((physicsGroupInit h fresh (.configList (r :: rs)) cfg2).configAddr = r ∧
     (∀ a, a ∈ r :: rs →
       HooksSet ((physicsGroupInit h fresh (.configList (r :: rs))
         cfg2).heap a)) ∧
     ((physicsGroupInit h fresh (.configList (r :: rs)) cfg2).heap
        r).classType = some ((h r).classType.getD ClassType.arcadeSprite)) := by
  refine ⟨⟨rfl, ?_⟩, rfl, ?_, ?_⟩
  · rw [init_heap_eq, resolveArgs_plainConfig]
    simp [hupdate_same]
  · intro a ha
    rw [init_heap_eq, resolveArgs_configList_cons]
    show HooksSet (hupdate ((r :: rs).foldl setHooksAt h) r
      (setClassType ((r :: rs).foldl setHooksAt h r)) a)
    by_cases har : a = r
    · subst har
      rw [hupdate_same]
      exact hooksSet_setClassType _
        (fold_hooks_mem (a :: rs) h a (List.mem_cons_self a rs))
    · rw [hupdate_other _ _ _ _ har]
      exact fold_hooks_mem (r :: rs) h a ha
  · rw [init_heap_eq, resolveArgs_configList_cons]
    show (hupdate ((r :: rs).foldl setHooksAt h) r
      (setClassType ((r :: rs).foldl setHooksAt h r)) r).classType = _
    rw [hupdate_same]
    show some (((r :: rs).foldl setHooksAt h r).classType.getD
      ClassType.arcadeSprite) = _
    rw [fold_hooks_classType]

/-- Closed instance of the C10 theorem on a concrete heap with a
caller-supplied record carrying its own hook and class fields. -/
theorem c10_in_place_mutation_witness :
    (((physicsGroupInit (fun _ => { emptyConfig with
        internalCreateCallback := some (Hook.callerFn 9) }) 10
        (.plainConfig 0) none).configAddr = 0 ∧
      (physicsGroupInit (fun _ => { emptyConfig with
        internalCreateCallback := some (Hook.callerFn 9) }) 10
        (.plainConfig 0) none).heap 0 =
        setClassType (setHooks { emptyConfig with
          internalCreateCallback := some (Hook.callerFn 9) })) ∧
     ((physicsGroupInit (fun _ => { emptyConfig with
        internalCreateCallback := some (Hook.callerFn 9) }) 10
        (.configList [0, 1]) none).configAddr = 0 ∧
      (∀ a, a ∈ [0, 1] →
        HooksSet ((physicsGroupInit (fun _ => { emptyConfig with
          internalCreateCallback := some (Hook.callerFn 9) }) 10
          (.configList [0, 1]) none).heap a)) ∧
      ((physicsGroupInit (fun _ => { emptyConfig with
        internalCreateCallback := some (Hook.callerFn 9) }) 10
        (.configList [0, 1]) none).heap 0).classType =
        some ClassType.arcadeSprite)) :=
  c10_in_place_mutation (fun _ => { emptyConfig with
    internalCreateCallback := some (Hook.callerFn 9) }) 10 0 [1] none none

end ArcadePhysicsGroup
